import Mathlib

/-!
Shallow embedding of the ville-social cloud-functions preview pipeline
(`src/functions/index.js`, `src/functions/regenerateAllEventPreviews.js`)
and proofs of the specification's claims about it.

External collaborators (Firestore, Cloud Storage, ffmpeg, `fetch`) are
modelled as explicit inputs: a `PipelineEnv` carries the success/failure
outcome of each external step and the freshly generated download tokens,
and the health checker takes the HTTP outcome of each attempt as a
function from the attempt number.  Timestamps from `serverTimestamp()`
and the float produced by `Math.random()` are opaque in the model.
-/

namespace Ville

/-- JS truthiness of an optional string-valued document field: the field is
falsy when it is absent (`undefined`) or the empty string. -/
def truthy : Option String → Bool
  | none => false
  | some s => !s.isEmpty

/-- The fields of an `events/{eventId}` document that the preview pipeline
and the health monitor read or write.  `none` models an absent field. -/
structure EventDoc where
  eventID : Option String := none
  event_video : Option String := none
  event_preview_vid : Option String := none
  event_preview_image : Option String := none
  deriving Repr, DecidableEq

/-- Reading `before.event_video` where `before` is `{}` when the document
did not exist (index.js line 133): a missing document or missing field both
read as `undefined`, i.e. `none`. -/
def videoOf : Option EventDoc → Option String
  | none => none
  | some d => d.event_video

/-- The debounce condition `needsPreview` of index.js lines 134-136:
`before.event_video !== after.event_video ||
 !(after.event_preview_vid && after.event_preview_image)`. -/
def needsPreview (before : Option EventDoc) (a : EventDoc) : Bool :=
  (videoOf before != a.event_video) ||
    !(truthy a.event_preview_vid && truthy a.event_preview_image)

/-- The complete regeneration decision of index.js lines 130-137: the handler
returns early unless `after` exists, `after.event_video` is truthy, and
`needsPreview` holds. -/
def previewDecision (before after : Option EventDoc) : Bool :=
  match after with
  | none => false
  | some a => truthy a.event_video && needsPreview before a

/-- Outcome of each external step of one pipeline run, plus the fresh
download tokens generated by `uuidv4()` for that run (index.js 197-198)
and the storage bucket name. -/
structure PipelineEnv where
  bucketName : String
  fetchOk : Bool
  clipExit : Nat
  thumbExit : Nat
  uploadVidOk : Bool
  uploadImgOk : Bool
  publishOk : Bool
  vidToken : String
  imgToken : String
  deriving Repr, DecidableEq

/-- The failure boundaries of one pipeline run, in execution order. -/
inductive Stage
  | fetch
  | transcodeClip
  | transcodeThumb
  | uploadVid
  | uploadImg
  | publish
  deriving Repr, DecidableEq

/-- A value written by a Firestore `update` fieldset: a plain string, the
`FieldValue.delete()` sentinel, the `FieldValue.serverTimestamp()` sentinel,
or a number (`Math.random()` modelled by an externally supplied `Nat`). -/
inductive FieldVal
  | str (s : String)
  | deleteField
  | serverTimestamp
  | num (n : Nat)
  deriving Repr, DecidableEq

/-- Observable trace of one handler invocation: whether regeneration was
decided, the stage the run failed at (`none` = success), whether the scoped
working directory was created and removed, the completed storage uploads as
(destination, public URL) pairs, the Firestore updates that were applied,
and the resulting document state. -/
structure RunTrace where
  ran : Bool := false
  failedAt : Option Stage := none
  workDirCreated : Bool := false
  workDirRemoved : Bool := false
  uploads : List (String × String) := []
  updates : List (List (String × FieldVal)) := []
  finalDoc : EventDoc := {}
  deriving Repr, DecidableEq

/-- Hex digit characters used by percent-encoding. -/
def hexDigit (n : Nat) : Char :=
  if n < 10 then Char.ofNat (48 + n) else Char.ofNat (55 + n)

/-- UTF-8 bytes of a code point, for percent-encoding. -/
def utf8Bytes (n : Nat) : List Nat :=
  if n < 128 then [n]
  else if n < 2048 then [192 + n / 64, 128 + n % 64]
  else if n < 65536 then [224 + n / 4096, 128 + n / 64 % 64, 128 + n % 64]
  else [240 + n / 262144, 128 + n / 4096 % 64, 128 + n / 64 % 64, 128 + n % 64]

/-- Characters left unescaped by the JS builtin `encodeURIComponent`. -/
def uriUnreserved (c : Char) : Bool :=
  c.isAlphanum || c == '-' || c == '_' || c == '.' || c == '!' || c == '~' ||
    c == '*' || c == Char.ofNat 39 || c == '(' || c == ')'

/-- Model of the JS builtin `encodeURIComponent` (an external collaborator):
unreserved characters kept, all others percent-encoded byte-wise. -/
def encodeURIComponent (s : String) : String :=
  String.join (s.toList.map fun c =>
    if uriUnreserved c then String.singleton c
    else String.join ((utf8Bytes c.toNat).map fun b =>
      String.mk ['%', hexDigit (b / 16), hexDigit (b % 16)]))

/-- Deterministic per-record storage destination of the preview clip
(index.js line 199). -/
def vidDest (eventId : String) : String :=
  "events/" ++ eventId ++ "/output.mp4"

/-- Deterministic per-record storage destination of the preview thumbnail
(index.js line 200). -/
def imgDest (eventId : String) : String :=
  "events/" ++ eventId ++ "/fallback.jpg"

/-- Everything of a published asset URL up to (and including) `token=`;
the freshly generated token is appended after it (index.js 219-224). -/
def assetUrlBase (bucketName dest : String) : String :=
  "https://firebasestorage.googleapis.com/v0/b/" ++ bucketName ++ "/o/" ++
    encodeURIComponent dest ++ "?alt=media&token="

/-- Public download URL of an uploaded asset (index.js 219-224). -/
def previewAssetUrl (bucketName dest token : String) : String :=
  assetUrlBase bucketName dest ++ token

/-- The single Firestore update of the pipeline's publish step
(index.js 226-229): it sets exactly the two preview URL fields. -/
def publishUpdate (previewVid previewImg : String) : List (String × FieldVal) :=
  [("event_preview_vid", FieldVal.str previewVid),
   ("event_preview_image", FieldVal.str previewImg)]

/-- Applies one fieldset entry to a document (the Firestore `update`
semantics restricted to the fields the model tracks). -/
def applyField (d : EventDoc) (kv : String × FieldVal) : EventDoc :=
  match kv with
  | ("event_video", FieldVal.str s) => { d with event_video := some s }
  | ("event_video", FieldVal.deleteField) => { d with event_video := none }
  | ("event_preview_vid", FieldVal.str s) => { d with event_preview_vid := some s }
  | ("event_preview_vid", FieldVal.deleteField) => { d with event_preview_vid := none }
  | ("event_preview_image", FieldVal.str s) => { d with event_preview_image := some s }
  | ("event_preview_image", FieldVal.deleteField) => { d with event_preview_image := none }
  | _ => d

/-- Applies a whole `update` fieldset atomically. -/
def applyUpdate (d : EventDoc) (u : List (String × FieldVal)) : EventDoc :=
  u.foldl applyField d

/-- One pipeline run on document `a` (index.js lines 142-232), after the
debounce decision was positive.  The work directory is created up front;
each external step either succeeds or aborts the run by throwing.  The
source contains no try/finally, so `fs.rm(workDir, ...)` on line 231 is
reached only on the all-success path; a thrown error leaves the directory
in place and applies no Firestore update. -/
def pipelineRun (a : EventDoc) (eventId : String) (env : PipelineEnv) : RunTrace :=
  if !env.fetchOk then
    { ran := true, failedAt := some Stage.fetch, workDirCreated := true, finalDoc := a }
  else if env.clipExit != 0 then
    { ran := true, failedAt := some Stage.transcodeClip, workDirCreated := true, finalDoc := a }
  else if env.thumbExit != 0 then
    { ran := true, failedAt := some Stage.transcodeThumb, workDirCreated := true, finalDoc := a }
  else if !env.uploadVidOk then
    { ran := true, failedAt := some Stage.uploadVid, workDirCreated := true, finalDoc := a }
  else if !env.uploadImgOk then
    { ran := true, failedAt := some Stage.uploadImg, workDirCreated := true,
      uploads := [(vidDest eventId, previewAssetUrl env.bucketName (vidDest eventId) env.vidToken)],
      finalDoc := a }
  else if !env.publishOk then
    { ran := true, failedAt := some Stage.publish, workDirCreated := true,
      uploads :=
        [(vidDest eventId, previewAssetUrl env.bucketName (vidDest eventId) env.vidToken),
         (imgDest eventId, previewAssetUrl env.bucketName (imgDest eventId) env.imgToken)],
      finalDoc := a }
  else
    { ran := true, failedAt := none, workDirCreated := true, workDirRemoved := true,
      uploads :=
        [(vidDest eventId, previewAssetUrl env.bucketName (vidDest eventId) env.vidToken),
         (imgDest eventId, previewAssetUrl env.bucketName (imgDest eventId) env.imgToken)],
      updates :=
        [publishUpdate
          (previewAssetUrl env.bucketName (vidDest eventId) env.vidToken)
          (previewAssetUrl env.bucketName (imgDest eventId) env.imgToken)],
      finalDoc := applyUpdate a
        (publishUpdate
          (previewAssetUrl env.bucketName (vidDest eventId) env.vidToken)
          (previewAssetUrl env.bucketName (imgDest eventId) env.imgToken)) }

/-- The `processPreviewAssets` onWrite handler (index.js 128-233): if the
debounce decision is negative the handler returns immediately with no
pipeline work; otherwise it runs the pipeline on the after-document. -/
def processPreviewAssets (before after : Option EventDoc) (eventId : String)
    (env : PipelineEnv) : RunTrace :=
  if previewDecision before after then
    pipelineRun ((after.getD {})) eventId env
  else
    { finalDoc := after.getD {} }

/-- Exactly one of the two preview output fields is set on a document. -/
def exactlyOneOutput (d : EventDoc) : Bool :=
  d.event_preview_vid.isSome ^^ d.event_preview_image.isSome

/-- An HTTP response as seen by `fetch`: status code, status text, body. -/
structure HttpResponse where
  status : Nat
  statusText : String
  body : String
  deriving Repr, DecidableEq

/-- The `response.ok` flag of the fetch API: status in the range 200-299. -/
def respOk (r : HttpResponse) : Bool :=
  200 ≤ r.status && r.status ≤ 299

/-- Outcome of one `fetch` call: either the promise rejected with an error
message, or a response arrived. -/
inductive FetchOutcome
  | thrown (msg : String)
  | resp (r : HttpResponse)
  deriving Repr, DecidableEq

/-- `hasPre p l` holds when the character list `p` is an initial segment
of `l` (the JS `String.startsWith`). -/
def hasPre : List Char → List Char → Bool
  | [], _ => true
  | _ :: _, [] => false
  | p :: ps, c :: cs => p == c && hasPre ps cs

/-- `includesL pat l`: `pat` occurs contiguously somewhere in `l`. -/
def includesL (pat : List Char) : List Char → Bool
  | [] => pat.isEmpty
  | c :: cs => hasPre pat (c :: cs) || includesL pat cs

/-- The JS `haystack.includes(pattern)` on strings. -/
def jsIncludes (s pat : String) : Bool :=
  includesL pat.toList s.toList

/-- Result object of one URL test (`{success, error?}`; the cosmetic
`message` field of the success case carries no information and is not
modelled). -/
structure TestResult where
  success : Bool
  error : Option String := none
  deriving Repr, DecidableEq

/-- The single-attempt URL check `testEventUrl` (index.js 657-724): a fetch
rejection, an error HTTP status, a body under 5000 characters, a missing
Flutter bootstrap marker, a missing Flutter build-config marker, or a
missing/empty title each fail with their own error string; otherwise the
attempt succeeds. -/
def testEventUrl (f : FetchOutcome) : TestResult :=
  match f with
  | FetchOutcome.thrown msg =>
    { success := false, error := some ("Fetch error: " ++ msg) }
  | FetchOutcome.resp r =>
    if !respOk r then
      { success := false,
        error := some ("HTTP " ++ toString r.status ++ ": " ++ r.statusText) }
    else if r.body.length < 5000 then
      { success := false,
        error := some ("Page too small: " ++ toString r.body.length ++
          " bytes - likely blank page or error") }
    else if !(jsIncludes r.body "_flutter.loader.load" ||
              jsIncludes r.body "flutter_bootstrap.js") then
      { success := false,
        error := some "No Flutter bootstrap detected - page may be showing error or fallback content" }
    else if !jsIncludes r.body "_flutter.buildConfig" then
      { success := false,
        error := some "No Flutter build config detected - Flutter app may not be properly configured" }
    else if !(jsIncludes r.body "<title>" && !jsIncludes r.body "<title></title>") then
      { success := false,
        error := some "No event title detected - eventMeta function may have failed to load event data" }
    else
      { success := true }

/-- The distinct failure modes of one attempt, in the order the checks
run. -/
inductive FailMode
  | fetchThrown
  | httpError
  | tooSmall
  | noBootstrap
  | noBuildConfig
  | noTitle
  deriving Repr, DecidableEq

/-- Which check an attempt fails at (`none` = the attempt succeeds),
mirroring the check order of `testEventUrl`. -/
def failMode (f : FetchOutcome) : Option FailMode :=
  match f with
  | FetchOutcome.thrown _ => some FailMode.fetchThrown
  | FetchOutcome.resp r =>
    if !respOk r then some FailMode.httpError
    else if r.body.length < 5000 then some FailMode.tooSmall
    else if !(jsIncludes r.body "_flutter.loader.load" ||
              jsIncludes r.body "flutter_bootstrap.js") then some FailMode.noBootstrap
    else if !jsIncludes r.body "_flutter.buildConfig" then some FailMode.noBuildConfig
    else if !(jsIncludes r.body "<title>" && !jsIncludes r.body "<title></title>") then
      some FailMode.noTitle
    else none

/-- Recovers the failure mode from an error string alone: the six error
formats are pairwise distinguishable, whatever values were interpolated. -/
def decodeErrMode (e : String) : Option FailMode :=
  if hasPre "Fetch error: ".toList e.toList then some FailMode.fetchThrown
  else if hasPre "HTTP ".toList e.toList then some FailMode.httpError
  else if hasPre "Page too small: ".toList e.toList then some FailMode.tooSmall
  else if e = "No Flutter bootstrap detected - page may be showing error or fallback content" then
    some FailMode.noBootstrap
  else if e = "No Flutter build config detected - Flutter app may not be properly configured" then
    some FailMode.noBuildConfig
  else if e = "No event title detected - eventMeta function may have failed to load event data" then
    some FailMode.noTitle
  else none

/-- One entry of the per-attempt log kept by the retry loop
(index.js 620-625; the wall-clock `timestamp` field is not modelled). -/
structure AttemptEntry where
  attempt : Nat
  success : Bool
  error : Option String
  deriving Repr, DecidableEq

/-- Result object of `testEventUrlWithRetries`. -/
structure RetryResult where
  success : Bool
  successAttempt : Option Nat := none
  attempts : List AttemptEntry
  error : Option String := none
  deriving Repr, DecidableEq

/-- Scheduler-visible events of the retry loop: a `setTimeout` delay in
milliseconds, or an HTTP attempt with its 1-based attempt number. -/
inductive Ev
  | wait (ms : Nat)
  | httpAttempt (n : Nat)
  deriving Repr, DecidableEq

/-- Fixed inter-attempt delay of the retry loop (index.js 609). -/
def retryDelay : Nat := 45000

/-- Fixed attempt bound of the retry loop (index.js 608). -/
def maxAttempts : Nat := 3

/-- Body of the retry loop of `testEventUrlWithRetries` (index.js 612-651):
before every attempt the loop sleeps `retryDelay`; a success returns at
once; the final attempt's failure returns the accumulated log.  `fuel` is
`maxAttempts + 1 - attempt`; the fuel-0 base case mirrors the JS loop
falling through (unreachable for `maxAttempts ≥ 1`). -/
def retryGo (o : Nat → FetchOutcome) : Nat → Nat → List Ev → List AttemptEntry →
    List Ev × RetryResult
  | _, 0, evs, acc =>
    (evs, { success := false, attempts := acc, error := some "loop fell through" })
  | attempt, fuel + 1, evs, acc =>
    let r := testEventUrl (o attempt)
    let evs := evs ++ [Ev.wait retryDelay, Ev.httpAttempt attempt]
    let acc := acc ++ [{ attempt := attempt, success := r.success, error := r.error }]
    if r.success then
      (evs, { success := true, successAttempt := some attempt, attempts := acc })
    else if fuel = 0 then
      (evs, { success := false, attempts := acc,
              error := some ("Failed after " ++ toString maxAttempts ++
                " attempts. Last error: " ++ r.error.getD "") })
    else
      retryGo o (attempt + 1) fuel evs acc

/-- `testEventUrlWithRetries` (index.js 607-652), returning both the
scheduler trace and the result object.  The outcome of attempt `i` is
`o i`. -/
def testEventUrlWithRetries (o : Nat → FetchOutcome) : List Ev × RetryResult :=
  retryGo o 1 maxAttempts [] []

/-- The first attempt number in 1..3 whose check passes. -/
def firstSuccessfulAttempt (o : Nat → FetchOutcome) : Option Nat :=
  if (testEventUrl (o 1)).success then some 1
  else if (testEventUrl (o 2)).success then some 2
  else if (testEventUrl (o 3)).success then some 3
  else none

/-- A persisted `eventHealthAlerts` document (index.js 580-592; the
`eventData` summary and server timestamp are not modelled). -/
structure HealthAlert where
  eventId : String
  docId : String
  eventUrl : String
  error : Option String
  attempts : List AttemptEntry
  resolved : Bool
  deriving Repr, DecidableEq

/-- The `monitorEventHealth` onCreate handler (index.js 553-602): without a
truthy `eventID` field it returns at once; otherwise it runs the retry
loop and, only when that exhausts all attempts, stores exactly one alert
document carrying the attempt log. -/
def monitorEventHealth (docId : String) (d : EventDoc) (o : Nat → FetchOutcome) :
    List HealthAlert :=
  match d.eventID with
  | none => []
  | some id =>
    if id.isEmpty then []
    else
      let res := (testEventUrlWithRetries o).2
      if !res.success then
        [{ eventId := id, docId := docId,
           eventUrl := "https://ville.social/event/" ++ id,
           error := res.error, attempts := res.attempts, resolved := false }]
      else []

/-- Count of HTTP attempts in a scheduler trace. -/
def attemptCount (l : List Ev) : Nat :=
  (l.filter fun ev => match ev with
    | Ev.httpAttempt _ => true
    | _ => false).length

/-- Every HTTP attempt in the trace is immediately preceded by a wait of
exactly `delay` milliseconds (so also the very first attempt). -/
def attemptsDelayed (delay : Nat) : List Ev → Bool
  | [] => true
  | Ev.httpAttempt _ :: _ => false
  | Ev.wait d :: Ev.httpAttempt _ :: rest => (d == delay) && attemptsDelayed delay rest
  | Ev.wait _ :: rest => attemptsDelayed delay rest

/-- A document as seen by the batch-sweep query (`regenerateAllEventPreviews.js`). -/
structure SweepDoc where
  id : String
  event_video : Option String := none
  deriving Repr, DecidableEq

/-- The sweep's per-document precondition (regenerateAllEventPreviews.js
line 299): documents whose `event_video` is absent or empty are skipped. -/
def sweepEligible (d : SweepDoc) : Bool :=
  truthy d.event_video

/-- The number of documents per batched commit
(regenerateAllEventPreviews.js line 281). -/
def batchSize : Nat := 100

/-- Result of one sweep: the ids updated by each committed batch, in commit
order, and whether a failed commit aborted the sweep.  A commit failure
propagates to the surrounding try/catch, so earlier committed batches stay
committed and no later batch runs. -/
structure SweepResult where
  committed : List (List String)
  aborted : Bool
  deriving Repr, DecidableEq

/-- The batch loop of `regenerateAllEventPreviews`
(regenerateAllEventPreviews.js 286-332): slice off `batchSize` documents,
stage an update for each eligible one, commit if anything was staged, then
continue with the rest.  `commitOk i` is the outcome of the `i`-th commit
(1-based, matching the logged batch number).  `fuel` starts at the document
count, which bounds the number of slices; the fuel-0 case with documents
remaining is unreachable from `regenerateAllEventPreviews`. -/
def sweepGo (commitOk : Nat → Bool) : Nat → List SweepDoc → Nat → List (List String) →
    SweepResult
  | _, [], _, acc => { committed := acc, aborted := false }
  | 0, _ :: _, _, acc => { committed := acc, aborted := false }
  | fuel + 1, d :: ds, idx, acc =>
    let updated := ((List.take batchSize (d :: ds)).filter sweepEligible).map SweepDoc.id
    let rest := List.drop batchSize (d :: ds)
    if updated.isEmpty then sweepGo commitOk fuel rest (idx + 1) acc
    else if commitOk idx then sweepGo commitOk fuel rest (idx + 1) (acc ++ [updated])
    else { committed := acc, aborted := true }

/-- The whole sweep over the queried documents. -/
def regenerateAllEventPreviews (docs : List SweepDoc) (commitOk : Nat → Bool) :
    SweepResult :=
  sweepGo commitOk docs.length docs 1 []

/-- A pipeline environment where every external step succeeds. -/
def envAllOk : PipelineEnv :=
  { bucketName := "ville-9fe9d.appspot.com", fetchOk := true, clipExit := 0, thumbExit := 0,
    uploadVidOk := true, uploadImgOk := true, publishOk := true,
    vidToken := "tok-vid-1", imgToken := "tok-img-1" }

/-- A concrete event document carrying a source video. -/
def sampleEvent : EventDoc := { event_video := some "videos/v1.mp4" }

/-- An environment where the first ffmpeg invocation exits non-zero. -/
def envClipFail : PipelineEnv := { envAllOk with clipExit := 1 }

/-- The all-success environment with fresh tokens for a second run. -/
def envFreshTokens : PipelineEnv :=
  { envAllOk with vidToken := "tok-vid-2", imgToken := "tok-img-2" }

/-- A document whose video field is present but empty. -/
def emptyVideoEvent : EventDoc := { event_video := some "" }

/-- An attempt oracle where every fetch rejects. -/
def allAttemptsFail : Nat → FetchOutcome := fun _ => FetchOutcome.thrown "ECONNREFUSED"

/-- A concrete created document with a truthy eventID. -/
def monitoredEvent : EventDoc := { eventID := some "E1", event_video := some "videos/v1.mp4" }

/-- A concrete sweep input of 250 eligible documents. -/
def sweepDocsSample : List SweepDoc :=
  List.replicate 250 { id := "evt", event_video := some "videos/v.mp4" }

/-! Helper lemmas. -/

/-- A list is an initial segment of itself followed by anything. -/
lemma hasPre_append (p s : List Char) : hasPre p (p ++ s) = true := by
  induction p with
  | nil => rfl
  | cons c cs ih => simp [hasPre, ih]

/-- Character list of an appended string. -/
lemma toList_append (s t : String) : (s ++ t).toList = s.toList ++ t.toList := by
  simp [String.toList, String.data_append]

/-- Mismatching head characters refute an initial-segment check. -/
lemma hasPre_cons_ne (p c : Char) (ps cs : List Char) (h : (p == c) = false) :
    hasPre (p :: ps) (c :: cs) = false := by
  simp [hasPre, h]

/-- An HTTP-status error string decodes to the httpError mode. -/
lemma decode_http (a b : String) :
    decodeErrMode ("HTTP " ++ a ++ ": " ++ b) = some FailMode.httpError := by
  have h1 : ("HTTP " ++ a ++ ": " ++ b).toList = 'H' :: 'T' :: 'T' :: 'P' :: ' ' :: (a ++ ": " ++ b).toList := by
    rw [show "HTTP " ++ a ++ ": " ++ b = "HTTP " ++ (a ++ ": " ++ b) by simp [String.append_assoc]]
    rw [toList_append]
    rfl
  unfold decodeErrMode
  rw [h1]
  rw [show "Fetch error: ".toList = 'F' :: "etch error: ".toList from rfl]
  rw [hasPre_cons_ne _ _ _ _ (by decide)]
  rw [show "HTTP ".toList = ['H', 'T', 'T', 'P', ' '] from rfl]
  simp [hasPre]

/-- A fetch-rejection error string decodes to the fetchThrown mode. -/
lemma decode_fetch (m : String) :
    decodeErrMode ("Fetch error: " ++ m) = some FailMode.fetchThrown := by
  unfold decodeErrMode
  rw [toList_append, show "Fetch error: ".toList ++ m.toList = 'F' :: ("etch error: ".toList ++ m.toList) from rfl]
  rw [show "Fetch error: ".toList = 'F' :: "etch error: ".toList from rfl]
  simp [hasPre, hasPre_append]

/-- A body-too-small error string decodes to the tooSmall mode. -/
lemma decode_small (a : String) :
    decodeErrMode ("Page too small: " ++ a ++ " bytes - likely blank page or error") =
      some FailMode.tooSmall := by
  have h1 : ("Page too small: " ++ a ++ " bytes - likely blank page or error").toList =
      "Page too small: ".toList ++ (a ++ " bytes - likely blank page or error").toList := by
    rw [show "Page too small: " ++ a ++ " bytes - likely blank page or error" =
      "Page too small: " ++ (a ++ " bytes - likely blank page or error") by simp [String.append_assoc]]
    rw [toList_append]
  unfold decodeErrMode
  rw [h1]
  rw [show "Page too small: ".toList = 'P' :: "age too small: ".toList from rfl]
  rw [show "Fetch error: ".toList = 'F' :: "etch error: ".toList from rfl]
  rw [show "HTTP ".toList = 'H' :: "TTP ".toList from rfl]
  simp [hasPre, hasPre_append]

/-- The missing-bootstrap error string decodes to its mode. -/
lemma decode_noBootstrap :
    decodeErrMode "No Flutter bootstrap detected - page may be showing error or fallback content" =
      some FailMode.noBootstrap := by decide

/-- The missing-build-config error string decodes to its mode. -/
lemma decode_noBuildConfig :
    decodeErrMode "No Flutter build config detected - Flutter app may not be properly configured" =
      some FailMode.noBuildConfig := by decide

/-- The missing-title error string decodes to its mode. -/
lemma decode_noTitle :
    decodeErrMode "No event title detected - eventMeta function may have failed to load event data" =
      some FailMode.noTitle := by decide

/-- Closed form of the retry loop: its trace and result are determined by
which of the three attempts succeeds first. -/
lemma retries_shape (o : Nat → FetchOutcome) :
    testEventUrlWithRetries o =
      (if (testEventUrl (o 1)).success then
        ([Ev.wait retryDelay, Ev.httpAttempt 1],
         { success := true, successAttempt := some 1,
           attempts := [{ attempt := 1, success := (testEventUrl (o 1)).success,
                          error := (testEventUrl (o 1)).error }] })
      else if (testEventUrl (o 2)).success then
        ([Ev.wait retryDelay, Ev.httpAttempt 1, Ev.wait retryDelay, Ev.httpAttempt 2],
         { success := true, successAttempt := some 2,
           attempts := [{ attempt := 1, success := (testEventUrl (o 1)).success,
                          error := (testEventUrl (o 1)).error },
                        { attempt := 2, success := (testEventUrl (o 2)).success,
                          error := (testEventUrl (o 2)).error }] })
      else if (testEventUrl (o 3)).success then
        ([Ev.wait retryDelay, Ev.httpAttempt 1, Ev.wait retryDelay, Ev.httpAttempt 2,
          Ev.wait retryDelay, Ev.httpAttempt 3],
         { success := true, successAttempt := some 3,
           attempts := [{ attempt := 1, success := (testEventUrl (o 1)).success,
                          error := (testEventUrl (o 1)).error },
                        { attempt := 2, success := (testEventUrl (o 2)).success,
                          error := (testEventUrl (o 2)).error },
                        { attempt := 3, success := (testEventUrl (o 3)).success,
                          error := (testEventUrl (o 3)).error }] })
      else
        ([Ev.wait retryDelay, Ev.httpAttempt 1, Ev.wait retryDelay, Ev.httpAttempt 2,
          Ev.wait retryDelay, Ev.httpAttempt 3],
         { success := false, successAttempt := none,
           attempts := [{ attempt := 1, success := (testEventUrl (o 1)).success,
                          error := (testEventUrl (o 1)).error },
                        { attempt := 2, success := (testEventUrl (o 2)).success,
                          error := (testEventUrl (o 2)).error },
                        { attempt := 3, success := (testEventUrl (o 3)).success,
                          error := (testEventUrl (o 3)).error }],
           error := some ("Failed after " ++ toString maxAttempts ++
             " attempts. Last error: " ++ (testEventUrl (o 3)).error.getD "") })) := by
  show retryGo o 1 (2 + 1) [] [] = _
  rw [retryGo]
  cases h1 : (testEventUrl (o 1)).success with
  | true => simp [h1]
  | false =>
    simp only [h1, Bool.false_eq_true, if_false, reduceIte]
    show retryGo o 2 (1 + 1) _ _ = _
    rw [retryGo]
    cases h2 : (testEventUrl (o 2)).success with
    | true => simp [h1, h2]
    | false =>
      simp only [h2, Bool.false_eq_true, if_false, reduceIte]
      show retryGo o 3 (0 + 1) _ _ = _
      rw [retryGo]
      cases h3 : (testEventUrl (o 3)).success with
      | true => simp [h1, h2, h3]
      | false => simp [h1, h2, h3]

/-- The handler runs the pipeline exactly when the decision is positive. -/
lemma processPreviewAssets_ran (b a : Option EventDoc) (e : String) (env : PipelineEnv) :
    (processPreviewAssets b a e env).ran = previewDecision b a := by
  unfold processPreviewAssets pipelineRun
  split_ifs <;> simp_all

/-- A list of non-zero length is not empty. -/
lemma isEmpty_false_of_length_ne_zero {α : Type} (l : List α) (h : l.length ≠ 0) :
    l.isEmpty = false := by
  cases l with
  | nil => simp at h
  | cons x xs => rfl

/-- The sweep loop on no documents commits nothing and does not abort. -/
lemma sweepGo_nil (commitOk : Nat → Bool) (fuel idx : Nat) (acc : List (List String)) :
    sweepGo commitOk fuel [] idx acc = { committed := acc, aborted := false } := by
  cases fuel <;> rfl

/-- One unfolding of the sweep loop on a non-empty document list. -/
lemma sweepGo_step (commitOk : Nat → Bool) (fuel : Nat) (docs : List SweepDoc)
    (idx : Nat) (acc : List (List String)) (hd : docs ≠ []) :
    sweepGo commitOk (fuel + 1) docs idx acc =
      (if (((docs.take batchSize).filter sweepEligible).map SweepDoc.id).isEmpty then
        sweepGo commitOk fuel (docs.drop batchSize) (idx + 1) acc
      else if commitOk idx then
        sweepGo commitOk fuel (docs.drop batchSize) (idx + 1)
          (acc ++ [((docs.take batchSize).filter sweepEligible).map SweepDoc.id])
      else { committed := acc, aborted := true }) := by
  cases docs with
  | nil => simp at hd
  | cons d ds => rfl

/-- A sweep step over a non-empty, all-eligible slice with a successful
commit appends that slice's ids and continues with the remaining documents. -/
lemma sweepGo_commit_step (commitOk : Nat → Bool) (fuel : Nat) (docs : List SweepDoc)
    (idx : Nat) (acc : List (List String)) (hne : docs ≠ [])
    (helig : ∀ d ∈ docs.take batchSize, sweepEligible d = true)
    (hlen : (docs.take batchSize).length ≠ 0)
    (hcommit : commitOk idx = true) :
    sweepGo commitOk (fuel + 1) docs idx acc =
      sweepGo commitOk fuel (docs.drop batchSize) (idx + 1)
        (acc ++ [(docs.take batchSize).map SweepDoc.id]) := by
  rw [sweepGo_step commitOk fuel docs idx acc hne]
  rw [List.filter_eq_self.mpr helig]
  have h1 : ((docs.take batchSize).map SweepDoc.id).isEmpty = false := by
    apply isEmpty_false_of_length_ne_zero
    simpa using hlen
  simp only [h1, hcommit, Bool.false_eq_true, if_false, if_true]

/-- A sweep step over a non-empty, all-eligible slice whose commit fails
returns the batches committed so far and aborts. -/
lemma sweepGo_abort_step (commitOk : Nat → Bool) (fuel : Nat) (docs : List SweepDoc)
    (idx : Nat) (acc : List (List String)) (hne : docs ≠ [])
    (helig : ∀ d ∈ docs.take batchSize, sweepEligible d = true)
    (hlen : (docs.take batchSize).length ≠ 0)
    (hcommit : commitOk idx = false) :
    sweepGo commitOk (fuel + 1) docs idx acc = { committed := acc, aborted := true } := by
  rw [sweepGo_step commitOk fuel docs idx acc hne]
  rw [List.filter_eq_self.mpr helig]
  have h1 : ((docs.take batchSize).map SweepDoc.id).isEmpty = false := by
    apply isEmpty_false_of_length_ne_zero
    simpa using hlen
  simp only [h1, hcommit, Bool.false_eq_true, if_false, if_true]

/-! Theorems about the claims. -/

/-- C1: the change debouncer decides that regeneration is required exactly when
the after-snapshot exists, its `event_video` is truthy (present and non-empty,
the code's reading of the reference existing), and either the source video
reference differs between before and after or at least one of the two preview
output fields is falsy on after; in every other case the handler decides no
regeneration and performs no pipeline work (no working directory, no uploads,
no record updates, no failure). -/
theorem debouncer_regenerates_iff (before after : Option EventDoc) (e : String)
    (env : PipelineEnv) :
    ((processPreviewAssets before after e env).ran = true ↔
      ∃ a, after = some a ∧ truthy a.event_video = true ∧
        (videoOf before ≠ a.event_video ∨ truthy a.event_preview_vid = false ∨
         truthy a.event_preview_image = false))
  ∧ ((processPreviewAssets before after e env).ran = false →
      (processPreviewAssets before after e env).workDirCreated = false ∧
      (processPreviewAssets before after e env).uploads = [] ∧
      (processPreviewAssets before after e env).updates = [] ∧
      (processPreviewAssets before after e env).failedAt = none) := by
  constructor
  · rw [processPreviewAssets_ran]
    cases after with
    | none => simp [previewDecision]
    | some a =>
      simp only [previewDecision, needsPreview, Option.some.injEq, Bool.and_eq_true,
        Bool.or_eq_true, bne_iff_ne]
      constructor
      · rintro ⟨hv, hrest⟩
        refine ⟨a, rfl, hv, ?_⟩
        rcases hrest with hne | hout
        · exact Or.inl hne
        · cases hpv : truthy a.event_preview_vid
          · exact Or.inr (Or.inl rfl)
          · cases hpi : truthy a.event_preview_image
            · exact Or.inr (Or.inr rfl)
            · rw [hpv, hpi] at hout
              simp at hout
      · rintro ⟨a', rfl, hv, hrest⟩
        refine ⟨hv, ?_⟩
        rcases hrest with hne | hpv | hpi
        · exact Or.inl hne
        · exact Or.inr (by simp [hpv])
        · exact Or.inr (by simp [hpi])
  · intro h
    have hd : previewDecision before after = false := by
      rw [← processPreviewAssets_ran before after e env]; exact h
    simp [processPreviewAssets, hd]

/-- C2: after any single pipeline run completes, a successful run sets both
preview fields in one record update (both are present on the resulting
document), a failed run leaves the document exactly as it was and applies no
update, and consequently a run never creates the state where exactly one of
the two preview fields is set. -/
theorem pipeline_pairing_invariant (a : EventDoc) (e : String) (env : PipelineEnv) :
    ((pipelineRun a e env).failedAt = none →
      (pipelineRun a e env).finalDoc.event_preview_vid.isSome = true ∧
      (pipelineRun a e env).finalDoc.event_preview_image.isSome = true ∧
      (pipelineRun a e env).updates.length = 1)
  ∧ ((pipelineRun a e env).failedAt ≠ none →
      (pipelineRun a e env).finalDoc = a ∧ (pipelineRun a e env).updates = [])
  ∧ (exactlyOneOutput a = false → exactlyOneOutput (pipelineRun a e env).finalDoc = false) := by
  unfold pipelineRun
  split_ifs <;> simp [applyUpdate, publishUpdate, applyField, exactlyOneOutput]

/-- C3 counterexample: on a concrete successful run the publish step performs
exactly one record update and that update writes exactly the two preview URL
fields - no regeneration timestamp is part of it, contradicting the claim
that the timestamp is set together with the URLs in the publish update. -/
theorem publish_writes_no_timestamp_counterexample :
    (pipelineRun sampleEvent "E1" envAllOk).failedAt = none ∧
    (pipelineRun sampleEvent "E1" envAllOk).updates.map (fun u => u.map Prod.fst) =
      [["event_preview_vid", "event_preview_image"]] :=
  ⟨rfl, rfl⟩

/-- C3 amended: the pipeline's publish step performs a single atomic record
update that sets both preview URL fields together; no third field is written
by the pipeline (the regeneration timestamp is stamped only by the batch
sweep's clearing update, not by the pipeline's publish). -/
theorem publish_single_update_both_urls (a : EventDoc) (e : String) (env : PipelineEnv)
    (h : (pipelineRun a e env).failedAt = none) :
    (pipelineRun a e env).updates =
      [publishUpdate (previewAssetUrl env.bucketName (vidDest e) env.vidToken)
                     (previewAssetUrl env.bucketName (imgDest e) env.imgToken)] := by
  unfold pipelineRun at h ⊢
  split_ifs at h ⊢
  all_goals simp_all

/-- Witness for the amended C3 theorem at a concrete successful run. -/
theorem publish_single_update_both_urls_witness :
    (pipelineRun sampleEvent "E1" envAllOk).updates =
      [publishUpdate (previewAssetUrl envAllOk.bucketName (vidDest "E1") envAllOk.vidToken)
                     (previewAssetUrl envAllOk.bucketName (imgDest "E1") envAllOk.imgToken)] :=
  publish_single_update_both_urls sampleEvent "E1" envAllOk rfl

/-- C4: for every newly created record with a truthy `eventID`, the health
verifier ends with success at the first attempt whose check passes and then
creates no alert; if all attempts fail (bound 3), it creates exactly one
alert document whose attempt log has exactly three entries, one per attempt
in order. -/
theorem health_monitor_first_pass_or_single_alert (docId : String) (d : EventDoc)
    (o : Nat → FetchOutcome) (id : String)
    (hid : d.eventID = some id) (hne : id.isEmpty = false) :
    (∀ i, firstSuccessfulAttempt o = some i →
      ((testEventUrlWithRetries o).2.success = true ∧
       (testEventUrlWithRetries o).2.successAttempt = some i ∧
       monitorEventHealth docId d o = []))
  ∧ (firstSuccessfulAttempt o = none →
      monitorEventHealth docId d o =
        [{ eventId := id, docId := docId,
           eventUrl := "https://ville.social/event/" ++ id,
           error := some ("Failed after " ++ toString maxAttempts ++
             " attempts. Last error: " ++ (testEventUrl (o 3)).error.getD ""),
           attempts :=
             [{ attempt := 1, success := false, error := (testEventUrl (o 1)).error },
              { attempt := 2, success := false, error := (testEventUrl (o 2)).error },
              { attempt := 3, success := false, error := (testEventUrl (o 3)).error }],
           resolved := false }]) := by
  cases hs1 : (testEventUrl (o 1)).success with
  | true =>
    constructor
    · intro i hi
      simp only [firstSuccessfulAttempt, hs1, if_true] at hi
      obtain rfl := Option.some.inj hi
      refine ⟨?_, ?_, ?_⟩ <;>
        simp [monitorEventHealth, hid, hne, retries_shape, hs1]
    · intro hnone
      simp [firstSuccessfulAttempt, hs1] at hnone
  | false =>
    cases hs2 : (testEventUrl (o 2)).success with
    | true =>
      constructor
      · intro i hi
        simp only [firstSuccessfulAttempt, hs1, hs2, Bool.false_eq_true, if_false,
          if_true] at hi
        obtain rfl := Option.some.inj hi
        refine ⟨?_, ?_, ?_⟩ <;>
          simp [monitorEventHealth, hid, hne, retries_shape, hs1, hs2]
      · intro hnone
        simp [firstSuccessfulAttempt, hs1, hs2] at hnone
    | false =>
      cases hs3 : (testEventUrl (o 3)).success with
      | true =>
        constructor
        · intro i hi
          simp only [firstSuccessfulAttempt, hs1, hs2, hs3, Bool.false_eq_true, if_false,
            if_true] at hi
          obtain rfl := Option.some.inj hi
          refine ⟨?_, ?_, ?_⟩ <;>
            simp [monitorEventHealth, hid, hne, retries_shape, hs1, hs2, hs3]
        · intro hnone
          simp [firstSuccessfulAttempt, hs1, hs2, hs3] at hnone
      | false =>
        constructor
        · intro i hi
          simp [firstSuccessfulAttempt, hs1, hs2, hs3] at hi
        · intro hnone
          simp [monitorEventHealth, hid, hne, retries_shape, hs1, hs2, hs3]

/-- Witness for C4 with three concrete failing attempts. -/
theorem health_monitor_first_pass_or_single_alert_witness :
    monitorEventHealth "doc1" monitoredEvent allAttemptsFail =
      [{ eventId := "E1", docId := "doc1",
         eventUrl := "https://ville.social/event/E1",
         error := some ("Failed after " ++ toString maxAttempts ++
           " attempts. Last error: " ++ (testEventUrl (allAttemptsFail 3)).error.getD ""),
         attempts :=
           [{ attempt := 1, success := false, error := (testEventUrl (allAttemptsFail 1)).error },
            { attempt := 2, success := false, error := (testEventUrl (allAttemptsFail 2)).error },
            { attempt := 3, success := false, error := (testEventUrl (allAttemptsFail 3)).error }],
         resolved := false }] :=
  (health_monitor_first_pass_or_single_alert "doc1" monitoredEvent allAttemptsFail "E1"
    rfl rfl).2 rfl

/-- C5: a single health-check attempt succeeds exactly when the fetch returned
a response with a non-error status (the fetch API's ok range 200-299), the
body has at least 5000 characters, the body contains the application-shell
bootstrap markers (a Flutter loader marker and the build-config marker), and
the body contains a non-empty title element (the code's marker reading:
`<title>` occurs and the empty `<title></title>` does not); moreover every
failure mode yields a structurally distinct error string, in that the failure
mode is recoverable from the error string alone. -/
theorem single_attempt_success_iff (f : FetchOutcome) :
    ((testEventUrl f).success = true ↔
      ∃ r, f = FetchOutcome.resp r ∧ respOk r = true ∧ 5000 ≤ r.body.length ∧
        (jsIncludes r.body "_flutter.loader.load" = true ∨
         jsIncludes r.body "flutter_bootstrap.js" = true) ∧
        jsIncludes r.body "_flutter.buildConfig" = true ∧
        jsIncludes r.body "<title>" = true ∧
        jsIncludes r.body "<title></title>" = false)
  ∧ (∀ e, (testEventUrl f).error = some e → decodeErrMode e = failMode f) := by
  cases f with
  | thrown m =>
    refine ⟨by simp [testEventUrl], ?_⟩
    intro e he
    dsimp only [testEventUrl] at he
    obtain rfl := Option.some.inj he
    simpa [failMode] using decode_fetch m
  | resp r =>
    unfold testEventUrl failMode
    dsimp only
    split_ifs with h1 h2 h3 h4 h5
    · refine ⟨⟨fun h => by simp at h, ?_⟩, ?_⟩
      · rintro ⟨r', hr', hok, -, -, -, -, -⟩
        cases hr'
        simp [hok] at h1
      · intro e he
        obtain rfl := Option.some.inj he
        exact decode_http _ _
    · refine ⟨⟨fun h => by simp at h, ?_⟩, ?_⟩
      · rintro ⟨r', hr', -, hlen, -, -, -, -⟩
        cases hr'
        omega
      · intro e he
        obtain rfl := Option.some.inj he
        exact decode_small _
    · refine ⟨⟨fun h => by simp at h, ?_⟩, ?_⟩
      · rintro ⟨r', hr', -, -, hboot, -, -, -⟩
        cases hr'
        rcases hboot with h | h <;> simp [h] at h3
      · intro e he
        obtain rfl := Option.some.inj he
        exact decode_noBootstrap
    · refine ⟨⟨fun h => by simp at h, ?_⟩, ?_⟩
      · rintro ⟨r', hr', -, -, -, hcfg, -, -⟩
        cases hr'
        simp [hcfg] at h4
      · intro e he
        obtain rfl := Option.some.inj he
        exact decode_noBuildConfig
    · refine ⟨⟨fun h => by simp at h, ?_⟩, ?_⟩
      · rintro ⟨r', hr', -, -, -, -, ht1, ht2⟩
        cases hr'
        simp [ht1, ht2] at h5
      · intro e he
        obtain rfl := Option.some.inj he
        exact decode_noTitle
    · refine ⟨⟨fun _ => ?_, fun _ => rfl⟩, ?_⟩
      · refine ⟨r, rfl, ?_, ?_, ?_, ?_, ?_, ?_⟩
        · simpa using h1
        · omega
        · have h3' : jsIncludes r.body "_flutter.loader.load" = false →
              jsIncludes r.body "flutter_bootstrap.js" = true := by simpa using h3
          cases ha : jsIncludes r.body "_flutter.loader.load" with
          | true => exact Or.inl rfl
          | false => exact Or.inr (h3' ha)
        · simpa using h4
        · have h5' : (jsIncludes r.body "<title>" &&
              !jsIncludes r.body "<title></title>") = true := by
            simpa using h5
          exact (Bool.and_eq_true_iff.mp h5').1
        · have h5' : (jsIncludes r.body "<title>" &&
              !jsIncludes r.body "<title></title>") = true := by
            simpa using h5
          simpa using (Bool.and_eq_true_iff.mp h5').2
      · intro e he
        exact he.elim

/-- C6: in every execution of the retry loop, each HTTP attempt - including
the very first - is immediately preceded by the fixed 45000 ms delay, and the
loop never performs more than 3 attempts. -/
theorem retry_delay_and_bound (o : Nat → FetchOutcome) :
    attemptsDelayed 45000 (testEventUrlWithRetries o).1 = true ∧
    attemptCount (testEventUrlWithRetries o).1 ≤ 3 := by
  rw [retries_shape]
  split_ifs <;> exact ⟨rfl, by dsimp only; decide⟩

/-- C7: sweeping 250 matching records with batch size 100 issues exactly
three batched commits of sizes 100, 100 and 50 in order, and a failure of
the second commit leaves the first batch committed (it is never rolled back
or retried) and aborts the sweep. -/
theorem batch_sweep_three_commits (docs : List SweepDoc) (commitOk : Nat → Bool)
    (hlen : docs.length = 250) (helig : ∀ d ∈ docs, sweepEligible d = true) :
    ((∀ i, commitOk i = true) →
      (regenerateAllEventPreviews docs commitOk).committed.map List.length = [100, 100, 50] ∧
      (regenerateAllEventPreviews docs commitOk).aborted = false)
  ∧ (commitOk 1 = true → commitOk 2 = false →
      (regenerateAllEventPreviews docs commitOk).committed =
        [(docs.take 100).map SweepDoc.id] ∧
      (regenerateAllEventPreviews docs commitOk).aborted = true) := by
  have hbs : batchSize = 100 := rfl
  have hne0 : docs ≠ [] := by
    intro h; rw [h] at hlen; simp at hlen
  have helig1 : ∀ d ∈ docs.take batchSize, sweepEligible d = true :=
    fun d hd => helig d (List.take_subset _ _ hd)
  have hlen1 : (docs.take batchSize).length ≠ 0 := by
    rw [List.length_take, hlen, hbs]; omega
  have hlenmap1 : ((docs.take batchSize).map SweepDoc.id).length = 100 := by
    rw [List.length_map, List.length_take, hlen, hbs]; omega
  have hlend1 : (docs.drop batchSize).length = 150 := by
    rw [List.length_drop, hlen, hbs]
  have hne1 : docs.drop batchSize ≠ [] := by
    intro h; rw [h] at hlend1; simp at hlend1
  have helig2 : ∀ d ∈ (docs.drop batchSize).take batchSize, sweepEligible d = true :=
    fun d hd => helig d (List.drop_subset _ _ (List.take_subset _ _ hd))
  have hlen2 : ((docs.drop batchSize).take batchSize).length ≠ 0 := by
    rw [List.length_take, hlend1, hbs]; omega
  have hlenmap2 : (((docs.drop batchSize).take batchSize).map SweepDoc.id).length = 100 := by
    rw [List.length_map, List.length_take, hlend1, hbs]; omega
  have hlend2 : ((docs.drop batchSize).drop batchSize).length = 50 := by
    rw [List.length_drop, hlend1, hbs]
  have hne2 : (docs.drop batchSize).drop batchSize ≠ [] := by
    intro h; rw [h] at hlend2; simp at hlend2
  have helig3 : ∀ d ∈ ((docs.drop batchSize).drop batchSize).take batchSize,
      sweepEligible d = true :=
    fun d hd => helig d
      (List.drop_subset _ _ (List.drop_subset _ _ (List.take_subset _ _ hd)))
  have hlen3 : (((docs.drop batchSize).drop batchSize).take batchSize).length ≠ 0 := by
    rw [List.length_take, hlend2, hbs]; omega
  have htake3 : ((docs.drop batchSize).drop batchSize).take batchSize =
      (docs.drop batchSize).drop batchSize := by
    apply List.take_of_length_le
    rw [hlend2, hbs]
    omega
  have hlenmap3 : ((((docs.drop batchSize).drop batchSize).take batchSize).map
      SweepDoc.id).length = 50 := by
    rw [htake3, List.length_map, hlend2]
  have hdrop3 : ((docs.drop batchSize).drop batchSize).drop batchSize = [] := by
    apply List.drop_eq_nil_of_le
    rw [hlend2, hbs]
    omega
  have hrw : regenerateAllEventPreviews docs commitOk =
      sweepGo commitOk (249 + 1) docs 1 [] := by
    rw [regenerateAllEventPreviews, hlen]
  constructor
  · intro hall
    rw [hrw,
      sweepGo_commit_step commitOk 249 docs 1 [] hne0 helig1 hlen1 (hall 1),
      show (249 : Nat) = 248 + 1 from rfl,
      sweepGo_commit_step commitOk 248 (docs.drop batchSize) 2 _ hne1 helig2 hlen2 (hall 2),
      show (248 : Nat) = 247 + 1 from rfl,
      sweepGo_commit_step commitOk 247 ((docs.drop batchSize).drop batchSize) 3 _ hne2
        helig3 hlen3 (hall 3),
      hdrop3, sweepGo_nil]
    refine ⟨?_, rfl⟩
    simp only [List.nil_append, List.cons_append, List.map_cons, List.map_nil]
    rw [hlenmap1, hlenmap2, hlenmap3]
  · intro hc1 hc2
    rw [hrw,
      sweepGo_commit_step commitOk 249 docs 1 [] hne0 helig1 hlen1 hc1,
      show (249 : Nat) = 248 + 1 from rfl,
      sweepGo_abort_step commitOk 248 (docs.drop batchSize) 2 _ hne1 helig2 hlen2 hc2]
    rw [hbs]
    exact ⟨by simp, rfl⟩

/-- Witness for C7 on 250 concrete documents with all commits succeeding. -/
theorem batch_sweep_three_commits_witness :
    (regenerateAllEventPreviews sweepDocsSample (fun _ => true)).committed.map List.length =
      [100, 100, 50] := by
  refine (batch_sweep_three_commits sweepDocsSample (fun _ => true)
    (by unfold sweepDocsSample; exact List.length_replicate _ _) ?_).1 (fun i => rfl) |>.1
  intro d hd
  rw [List.eq_of_mem_replicate hd]
  rfl

/-- C8 counterexample: a concrete run failing at the first transcode step
creates the scoped working directory but never removes it - the source has
no try/finally, so the cleanup on the last line of the handler is unreachable
on error paths, contradicting the claim that every exit path releases the
working storage. -/
theorem workdir_leak_counterexample :
    (pipelineRun sampleEvent "E1" envClipFail).failedAt = some Stage.transcodeClip ∧
    (pipelineRun sampleEvent "E1" envClipFail).workDirCreated = true ∧
    (pipelineRun sampleEvent "E1" envClipFail).workDirRemoved = false :=
  ⟨rfl, rfl, rfl⟩

/-- C8 amended: every pipeline run creates the scoped working directory, and
removes it exactly on the successful exit path; a failure at any stage
(fetch, either transcode step, either upload, publish) terminates the run
with the directory still in place. -/
theorem workdir_removed_only_on_success (a : EventDoc) (e : String) (env : PipelineEnv) :
    (pipelineRun a e env).workDirCreated = true ∧
    (pipelineRun a e env).workDirRemoved = decide ((pipelineRun a e env).failedAt = none) := by
  unfold pipelineRun
  split_ifs <;> simp

/-- C9: two successful runs over the same record upload to the same
deterministic per-record storage destinations, and each published URL is the
deterministic base for that destination followed by the run's freshly
supplied access token - so the runs' URLs differ only in the trailing token
query value. -/
theorem deterministic_paths_fresh_tokens (a : EventDoc) (e : String)
    (env₁ env₂ : PipelineEnv) (hb : env₁.bucketName = env₂.bucketName)
    (h₁ : (pipelineRun a e env₁).failedAt = none)
    (h₂ : (pipelineRun a e env₂).failedAt = none) :
    (pipelineRun a e env₁).uploads.map Prod.fst = [vidDest e, imgDest e] ∧
    (pipelineRun a e env₂).uploads.map Prod.fst = [vidDest e, imgDest e] ∧
    (pipelineRun a e env₁).uploads.map Prod.snd =
      [assetUrlBase env₁.bucketName (vidDest e) ++ env₁.vidToken,
       assetUrlBase env₁.bucketName (imgDest e) ++ env₁.imgToken] ∧
    (pipelineRun a e env₂).uploads.map Prod.snd =
      [assetUrlBase env₁.bucketName (vidDest e) ++ env₂.vidToken,
       assetUrlBase env₁.bucketName (imgDest e) ++ env₂.imgToken] := by
  rw [hb]
  unfold pipelineRun at h₁ h₂ ⊢
  split_ifs at h₁ h₂ ⊢
  all_goals simp_all [previewAssetUrl]

/-- Witness for C9 at two concrete runs differing only in their tokens. -/
theorem deterministic_paths_fresh_tokens_witness :
    (pipelineRun sampleEvent "E1" envAllOk).uploads.map Prod.snd =
      [assetUrlBase envAllOk.bucketName (vidDest "E1") ++ envAllOk.vidToken,
       assetUrlBase envAllOk.bucketName (imgDest "E1") ++ envAllOk.imgToken] :=
  (deterministic_paths_fresh_tokens sampleEvent "E1" envAllOk envFreshTokens rfl rfl rfl).2.2.1

/-- C10: an after-snapshot whose `event_video` field is present but equal to
the empty string is not eligible: the decision is negative, identical to the
decision with the field absent, and no pipeline work happens. -/
theorem empty_source_not_eligible (before : Option EventDoc) (a : EventDoc) (e : String)
    (env : PipelineEnv) (h : a.event_video = some "") :
    previewDecision before (some a) = false ∧
    previewDecision before (some a) =
      previewDecision before (some { a with event_video := none }) ∧
    (processPreviewAssets before (some a) e env).workDirCreated = false ∧
    (processPreviewAssets before (some a) e env).uploads = [] ∧
    (processPreviewAssets before (some a) e env).updates = [] := by
  have hd : previewDecision before (some a) = false := by
    have hv : truthy a.event_video = false := by rw [h]; rfl
    simp [previewDecision, hv]
  have hd2 : previewDecision before (some { a with event_video := none }) = false := by
    simp [previewDecision, truthy]
  refine ⟨hd, hd.trans hd2.symm, ?_, ?_, ?_⟩ <;> simp [processPreviewAssets, hd]

/-- Witness for C10 at a concrete document with an empty video field. -/
theorem empty_source_not_eligible_witness :
    previewDecision (some sampleEvent) (some emptyVideoEvent) = false :=
  (empty_source_not_eligible (some sampleEvent) emptyVideoEvent "E1" envAllOk rfl).1

end Ville
